import Mathlib

/-!
Verification development for the Image_Emperor repository
(src/Image_king_bot.py, a Telegram image-generation bot).

The bot is a conversation state machine over a per-user session
(`context.user_data`) plus a one-shot generation client
(`generate_image_sync`).  We embed the session dictionary as a
structure, each handler as a pure function from its inputs and the
session to the updated session, the returned conversation state, and
the list of texts sent with `reply_text`.  The external generation
call and the image send are inputs to the handlers (`gen`, `sent`),
mirroring the values the awaited calls produce in the Python code.
-/

/-- Image bytes are an opaque byte string; we embed them as a list of
byte values. -/
abbrev Bytes := List Nat

/-- ALLOWED_DIMS from the source (lines 55-58): the nine SDXL
dimension tokens offered as buttons. -/
def ALLOWED_DIMS : List String :=
  [ "1024x1024", "1152x896", "1216x832", "1344x768",
    "1536x640", "640x1536", "768x1344", "832x1216", "896x1152" ]

/-- The eight conversation states of the Python `range(8)` enum. -/
inductive ConvState where
  | ASK_NAME
  | ASK_PHONE
  | VERIFY_OTP
  | DIMENSION_CHOICE
  | AWAIT_PROMPT
  | AFTER_IMAGE
  | EDIT_PROMPT
  | REGEN_PROMPT
deriving DecidableEq, Repr

/-- What a handler returns to the framework: a next conversation
state, `ConversationHandler.END` (`ended`), or an unhandled exception
escaping the handler (`crashed`, which leaves the framework state
unchanged). -/
inductive Next where
  | state (s : ConvState)
  | ended
  | crashed
deriving DecidableEq, Repr

/-- The per-user session dictionary `context.user_data`.  A key that
is absent from the dictionary is `none` (for `verified`, absence is
embedded as `false`, the only values ever stored being `True`). -/
structure Session where
  name : Option String := none
  phone : Option String := none
  otp : Option String := none
  verified : Bool := false
  dimension : Option String := none
  last_prompt : Option String := none
  last_image : Option Bytes := none
  gallery : List Bytes := []
deriving DecidableEq, Repr

/-- The empty session produced by `context.user_data.clear()`. -/
def emptySession : Session := {}

/-- Result of running one handler: the mutated session, the returned
next state, and the texts sent with `reply_text`, in order.  Photo
sends and chat actions are not texts and are not listed. -/
structure HandlerOut where
  session : Session
  next : Next
  msgs : List String
deriving DecidableEq, Repr

/-- Python `s.strip()`: drop whitespace from both ends.  Written on
the character list so that it evaluates by kernel reduction. -/
def pyStrip (s : String) : String :=
  String.mk
    (((s.toList.dropWhile Char.isWhitespace).reverse.dropWhile
        Char.isWhitespace).reverse)

/-- Python string truthiness test for an optional string field, as in
`if not dim:`: missing or empty is falsy. -/
def strOptFalsy : Option String → Bool
  | none => true
  | some s => s.isEmpty

/-- Python `l[-n:]`: the last `n` elements of a list (the whole list
when it is shorter than `n`). -/
def takeLast (n : Nat) (l : List α) : List α := l.drop (l.length - n)

/-- Python `s.split("x")` for the one-character separator `"x"`, on
the character list. -/
def splitXAux : List Char → List (List Char)
  | [] => [[]]
  | c :: rest =>
    if c == 'x' then [] :: splitXAux rest
    else
      match splitXAux rest with
      | [] => [[c]]
      | g :: gs => (c :: g) :: gs

/-- Python `s.split("x")`. -/
def splitX (s : String) : List String := (splitXAux s.toList).map String.mk

/-- Python `int(s)` restricted to the plain digit strings that occur
as dimension components (`int` also accepts signs, whitespace and
underscores, none of which appear in the dimension tokens). -/
def pyIntParse (s : String) : Option Nat :=
  if s.toList ≠ [] ∧ s.toList.all Char.isDigit then
    some (s.toList.foldl (fun acc c => acc * 10 + (c.toNat - 48)) 0)
  else none

/-- Python `width, height = map(int, dim.split("x"))`: succeeds only
when the split gives exactly two parts and both parse as integers;
anything else raises and the handler crashes. -/
def parseDim (d : String) : Option (Nat × Nat) :=
  match (splitX d).map pyIntParse with
  | [some w, some h] => some (w, h)
  | _ => none

/-- Python `data.split(":", 1)[1]`: everything after the first colon.
The callers guard with a `dim:`/`act:` prefix check, so a colon is
always present there. -/
def splitColonTail (s : String) : String :=
  String.mk ((s.toList.dropWhile fun c => c != ':').drop 1)

/-- Python `str(random.randint(1000, 9999))` from `generate_otp`
(source lines 78-79), with the random draw supplied as `n`.  The
draw is `1000 + n % 9000`, a four-digit number, whose `str` is its
four digits written out. -/
def generate_otp (n : Nat) : String :=
  let m := 1000 + n % 9000
  String.mk [ Nat.digitChar (m / 1000), Nat.digitChar (m / 100 % 10),
    Nat.digitChar (m / 10 % 10), Nat.digitChar (m % 10) ]

/-- Handler `cmd_start` (lines 157-162): clear the session, greet,
enter ASK_NAME. -/
def cmd_start (_s : Session) : HandlerOut :=
  ⟨emptySession, .state .ASK_NAME, ["👋 Welcome! What\x27s your *name*?"]⟩

/-- Handler `ask_phone` (lines 164-168): store the stripped text as
the name, ask for the phone number. -/
def ask_phone (text : String) (s : Session) : HandlerOut :=
  let nm := pyStrip text
  ⟨{ s with name := some nm }, .state .ASK_PHONE,
    ["📱 Please enter your mobile number:"]⟩

/-- Handler `send_otp` (lines 170-180): store the phone, draw an OTP
and store and display it. -/
def send_otp (text : String) (rand : Nat) (s : Session) : HandlerOut :=
  let phone := pyStrip text
  let otp := generate_otp rand
  ⟨{ s with phone := some phone, otp := some otp }, .state .VERIFY_OTP,
    ["🔐 Your OTP is: *" ++ otp ++ "*\n\nPlease type it here to verify."]⟩

/-- Handler `verify_otp_handler` (lines 182-204).  The Python guard is
`if expected and entered == expected:`, so a missing or empty stored
OTP always falls to the mismatch branch. -/
def verify_otp_handler (text : String) (s : Session) : HandlerOut :=
  let entered := pyStrip text
  match s.otp with
  | some expected =>
    if expected ≠ "" ∧ entered = expected then
      ⟨{ s with verified := true }, .state .DIMENSION_CHOICE,
        ["✅ Verified! Choose image dimensions:"]⟩
    else
      ⟨s, .state .VERIFY_OTP, ["❌ Wrong OTP. Please try again."]⟩
  | none =>
    ⟨s, .state .VERIFY_OTP, ["❌ Wrong OTP. Please try again."]⟩

/-- Handler `dimension_chosen` (lines 206-217): on a payload starting
with `dim:`, store everything after the first colon as the dimension
(the source performs no allow-list check here; the registered pattern
only requires the `dim:` prefix); otherwise stay in DIMENSION_CHOICE. -/
def dimension_chosen (data : String) (s : Session) : HandlerOut :=
  if ("dim:".toList.isPrefixOf data.toList) = false then
    ⟨s, .state .DIMENSION_CHOICE, ["Invalid selection."]⟩
  else
    let dim := splitColonTail data
    ⟨{ s with dimension := some dim }, .state .AWAIT_PROMPT,
      ["Dimension set to *" ++ dim ++
        "*.\n\nNow send me the text prompt (describe the image):"]⟩

/-- Handler `receive_prompt_and_generate` (lines 219-263).  The prompt
is stored before the dimension check.  `gen` is the awaited result of
`generate_image_async` and `sent` the result of
`safe_send_image_by_bot`; on the falsy-dimension path neither call is
made and the conversation ends. -/
def receive_prompt_and_generate (text : String) (gen : Bool × Option Bytes)
    (sent : Bool) (s : Session) : HandlerOut :=
  let prompt := pyStrip text
  let s1 := { s with last_prompt := some prompt }
  if strOptFalsy s1.dimension then
    ⟨s1, .ended, ["⚠️ Dimension not set. Please /start and choose a dimension."]⟩
  else
    match parseDim (s1.dimension.getD "") with
    | none => ⟨s1, .crashed, []⟩
    | some _wh =>
      let waitMsg := "🎨 Generating your image... this may take a few seconds. Please wait ⏳"
      if gen.1 = false ∨ gen.2 = none then
        ⟨s1, .state .AWAIT_PROMPT,
          [waitMsg, "❌ Failed to generate image. Try again later or try a different prompt."]⟩
      else
        let s2 := { s1 with last_image := gen.2 }
        if sent = false then
          ⟨s2, .state .AWAIT_PROMPT,
            [waitMsg, "❌ Generated image but failed to send. Try again."]⟩
        else
          ⟨s2, .state .AFTER_IMAGE, [waitMsg, "Choose next action:"]⟩

/-- Core of handler `after_image_action` (lines 266-307), acting on the
token after `act:` in the callback payload. -/
def afterImageStep (action : String) (s : Session) : HandlerOut :=
  if action = "edit" then
    ⟨s, .state .EDIT_PROMPT,
      ["✏️ What would you like to edit in the image? Describe the changes:"]⟩
  else if action = "save" then
    match s.last_image with
    | none => ⟨s, .state .AFTER_IMAGE, ["No image available to save."]⟩
    | some img =>
      let gallery := s.gallery ++ [img]
      ⟨{ s with gallery := takeLast 20 gallery }, .state .AFTER_IMAGE,
        ["✅ Saved to gallery."]⟩
  else if action = "nosave" then
    ⟨{ s with last_image := none }, .state .AFTER_IMAGE,
      ["Okay — image not saved to gallery."]⟩
  else if action = "regen" then
    ⟨s, .state .REGEN_PROMPT,
      ["🔁 What type of image do you want now? Send a new prompt:"]⟩
  else
    ⟨s, .state .AFTER_IMAGE, ["Unknown action."]⟩

/-- Handler `after_image_action` on the raw callback payload
(`action = data.split(":", 1)[1]`). -/
def after_image_action (data : String) (s : Session) : HandlerOut :=
  afterImageStep (splitColonTail data) s

/-- Handler `edit_prompt_handler` (lines 310-359).  The missing-prompt
check comes first; the combined prompt is stored before the dimension
check. -/
def edit_prompt_handler (text : String) (gen : Bool × Option Bytes)
    (sent : Bool) (s : Session) : HandlerOut :=
  let edit_instructions := pyStrip text
  let orig_prompt := s.last_prompt.getD ""
  if orig_prompt.isEmpty then
    ⟨s, .state .AWAIT_PROMPT,
      ["Original prompt missing. Please generate an image first."]⟩
  else
    let combined_prompt := orig_prompt ++ ". Edit: " ++ edit_instructions
    let s1 := { s with last_prompt := some combined_prompt }
    if strOptFalsy s1.dimension then
      ⟨s1, .ended, ["Dimension missing. Please /start and choose dimension."]⟩
    else
      match parseDim (s1.dimension.getD "") with
      | none => ⟨s1, .crashed, []⟩
      | some _wh =>
        let waitMsg := "🎨 Applying edits... please wait ⏳"
        if gen.1 = false ∨ gen.2 = none then
          ⟨s1, .state .AFTER_IMAGE, [waitMsg, "❌ Failed to edit the image. Try again."]⟩
        else
          let s2 := { s1 with last_image := gen.2 }
          if sent = false then
            ⟨s2, .state .AFTER_IMAGE,
              [waitMsg, "❌ Edited image generated but failed to send."]⟩
          else
            ⟨s2, .state .AFTER_IMAGE, [waitMsg, "Choose next action:"]⟩

/-- Handler `regen_prompt_handler` (lines 362-398).  Unlike the
AWAIT_PROMPT handler, the prompt is stored only after the dimension
check. -/
def regen_prompt_handler (text : String) (gen : Bool × Option Bytes)
    (sent : Bool) (s : Session) : HandlerOut :=
  let prompt := pyStrip text
  if strOptFalsy s.dimension then
    ⟨s, .ended, ["Dimension missing. Start with /start."]⟩
  else
    match parseDim (s.dimension.getD "") with
    | none => ⟨s, .crashed, []⟩
    | some _wh =>
      let s1 := { s with last_prompt := some prompt }
      let waitMsg := "🎨 Generating new image... please wait ⏳"
      if gen.1 = false ∨ gen.2 = none then
        ⟨s1, .state .AWAIT_PROMPT, [waitMsg, "❌ Failed to generate. Try again."]⟩
      else
        let s2 := { s1 with last_image := gen.2 }
        if sent = false then
          ⟨s2, .state .AWAIT_PROMPT, [waitMsg, "❌ Generated but failed to send."]⟩
        else
          ⟨s2, .state .AFTER_IMAGE, [waitMsg, "Choose next action:"]⟩

/-- Handler `cmd_cancel` (lines 422-424). -/
def cmd_cancel (s : Session) : HandlerOut :=
  ⟨s, .ended, ["Cancelled. You can begin again with /start."]⟩

/-- Which conversation states are text-input states: exactly the
states registered with a `MessageHandler(filters.TEXT, ...)` in
`main` (lines 433-442); DIMENSION_CHOICE and AFTER_IMAGE are instead
registered with a `CallbackQueryHandler` (button input). -/
def isTextInput : ConvState → Bool
  | .ASK_NAME => true
  | .ASK_PHONE => true
  | .VERIFY_OTP => true
  | .DIMENSION_CHOICE => false
  | .AWAIT_PROMPT => true
  | .AFTER_IMAGE => false
  | .EDIT_PROMPT => true
  | .REGEN_PROMPT => true

/-! ### Generation client (`generate_image_sync`, lines 93-129)

The HTTP call, the parsed JSON body and the base64 decode are
embedded explicitly; every exception inside the `try` blocks of the
Python code becomes a `none`, which the function collapses to the
single failure outcome `(false, none)`. -/

/-- A JSON value as produced by `r.json()`. -/
inductive Json where
  | jnull
  | jbool (b : Bool)
  | jnum (n : Int)
  | jstr (s : String)
  | jarr (xs : List Json)
  | jobj (kvs : List (String × Json))

/-- Contiguous-sublist test on character lists. -/
def listInfixOf (needle : List Char) : List Char → Bool
  | [] => needle.isEmpty
  | c :: rest => needle.isPrefixOf (c :: rest) || listInfixOf needle rest

/-- Python substring test `needle in hay` on strings. -/
def strContains (needle hay : String) : Bool :=
  listInfixOf needle.toList hay.toList

/-- Python `x == needle` for a string `needle` against a JSON value:
true only for the equal string. -/
def pyEqStr (needle : String) (x : Json) : Bool :=
  match x with
  | .jstr s => s == needle
  | _ => false

/-- Python `needle in j` for a string `needle`: key membership for a
dict, element membership for a list, substring test for a string;
a TypeError (`none`) for the other values. -/
def pyIn (needle : String) (j : Json) : Option Bool :=
  match j with
  | .jobj kvs => some (kvs.find? (fun kv => kv.1 == needle)).isSome
  | .jarr xs => some (xs.any (pyEqStr needle))
  | .jstr s => some (strContains needle s)
  | _ => none

/-- Python `j[key]` for a string key: dict lookup (`none` embeds the
KeyError for a missing key and the TypeError for non-dict values). -/
def pyGetStr (j : Json) (key : String) : Option Json :=
  match j with
  | .jobj kvs => (kvs.find? (fun kv => kv.1 == key)).map Prod.snd
  | _ => none

/-- Python `len(j)`: defined for strings, lists and dicts, a TypeError
otherwise. -/
def pyLen (j : Json) : Option Nat :=
  match j with
  | .jstr s => some s.length
  | .jarr xs => some xs.length
  | .jobj kvs => some kvs.length
  | _ => none

/-- Python `j[i]` for a numeric index: list indexing, or the one-char
string for a string; a KeyError for a dict with string keys and a
TypeError for the other values. -/
def pyGetNat (j : Json) (i : Nat) : Option Json :=
  match j with
  | .jarr xs => xs.get? i
  | .jstr s => (s.toList.get? i).map fun c => Json.jstr (String.mk [c])
  | _ => none

/-- Value of a base64 alphabet character. -/
def b64charVal (c : Char) : Option Nat :=
  if 'A' ≤ c ∧ c ≤ 'Z' then some (c.toNat - 65)
  else if 'a' ≤ c ∧ c ≤ 'z' then some (c.toNat - 97 + 26)
  else if '0' ≤ c ∧ c ≤ '9' then some (c.toNat - 48 + 52)
  else if c = '+' then some 62
  else if c = '/' then some 63
  else none

/-- The loop of `binascii.a2b_base64` in its default non-strict mode,
as a state machine over the quad position `quadPos` (0-3), the pending
bits `left`, and the running pad count `pads`.  A `=` at quad position
0 or 1 is ignored (it does not even count as padding); a `=` at quad
position 2 or 3 increments the pad count and, once
`quadPos + pads = 4`, ends the data successfully with everything after
it ignored.  A character outside the alphabet is skipped without
resetting the pad count; a data character resets the pad count and
shifts six bits through the quad positions, emitting a byte at
positions 1, 2 and 3.  Input that ends at quad position 1, 2 or 3 is
a padding error (`none`). -/
def a2b_aux : List Char → Nat → Nat → Nat → List Nat → Option (List Nat)
  | [], quadPos, _left, _pads, acc => if quadPos = 0 then some acc else none
  | c :: rest, quadPos, left, pads, acc =>
    if c = '=' then
      if 2 ≤ quadPos ∧ 4 ≤ quadPos + (pads + 1) then some acc
      else a2b_aux rest quadPos left (if 2 ≤ quadPos then pads + 1 else pads) acc
    else
      match b64charVal c with
      | none => a2b_aux rest quadPos left pads acc
      | some v =>
        match quadPos with
        | 0 => a2b_aux rest 1 v 0 acc
        | 1 => a2b_aux rest 2 (v % 16) 0 (acc ++ [left * 4 + v / 16])
        | 2 => a2b_aux rest 3 (v % 4) 0 (acc ++ [left * 16 + v / 4])
        | _ => a2b_aux rest 0 0 0 (acc ++ [left * 64 + v])

/-- `binascii.a2b_base64` in non-strict mode. -/
def a2b_base64 (cs : List Char) : Option (List Nat) := a2b_aux cs 0 0 0 []

/-- Python `base64.b64decode` on a str input: `_bytes_from_decode_data`
first encodes the string as ASCII, raising a ValueError (here `none`)
on any character above codepoint 127, and the bytes then go through
`binascii.a2b_base64`. -/
def b64decode (s : String) : Option (List Nat) :=
  if s.toList.all (fun c => c.toNat < 128) then a2b_base64 s.toList
  else none

/-- Python `base64.b64decode(v)` applied to a JSON value: a TypeError
(`none`) unless the value is a string. -/
def b64decodeVal (j : Json) : Option Bytes :=
  match j with
  | .jstr s => b64decode s
  | _ => none

/-- Outcome of `requests.post`: either an exception (`raised`), or a
response with a status code and the result of `r.json()` (`none` when
that call raises on an unparsable body). -/
inductive HttpOutcome where
  | raised
  | resp (status : Nat) (body : Option Json)

/-- The body of the final `try` block of `generate_image_sync`
(lines 121-127): evaluate
`"artifacts" in j and len(j["artifacts"]) > 0 and "base64" in j["artifacts"][0]`
with Python short-circuiting, then decode
`j["artifacts"][0]["base64"]`.  The outer `none` is an exception
(caught as failure), `some (false, none)` is the falsy fall-through
to the final `return False, None`, and `some (true, bytes)` is the
success return.  The Python expression re-evaluates `j["artifacts"]`
three times; it is pure, so it is bound once here. -/
def extractArtifact (j : Json) : Option (Bool × Option Bytes) :=
  match pyIn "artifacts" j with
  | none => none
  | some false => some (false, none)
  | some true =>
    match pyGetStr j "artifacts" with
    | none => none
    | some arts =>
      match pyLen arts with
      | none => none
      | some n =>
        if n = 0 then some (false, none)
        else
          match pyGetNat arts 0 with
          | none => none
          | some first =>
            match pyIn "base64" first with
            | none => none
            | some false => some (false, none)
            | some true =>
              match pyGetStr first "base64" with
              | none => none
              | some bval =>
                match b64decodeVal bval with
                | none => none
                | some bytes => some (true, some bytes)

/-- `generate_image_sync` (lines 93-129) as a function of the HTTP
outcome: any request exception, non-200 status, body-parse exception,
falsy artifact check or decode exception collapses to
`(False, None)`; the only success is `(True, bytes)`. -/
def generate_image_sync (r : HttpOutcome) : Bool × Option Bytes :=
  match r with
  | .raised => (false, none)
  | .resp status body =>
    if status ≠ 200 then (false, none)
    else
      match body with
      | none => (false, none)
      | some j => (extractArtifact j).getD (false, none)

/-- Modelled from the spec (§4.2, amended): the success condition of
the generation client stated in the words of the specification, for
comparison with `generate_image_sync` — the parsed body is an object
whose `artifacts` member is a non-empty array whose first element is
an object with a `base64` string member that decodes as base64. -/
def successShape (j : Json) : Option Bytes :=
  match j with
  | .jobj kvs =>
    match (kvs.find? (fun kv => kv.1 == "artifacts")).map Prod.snd with
    | some (.jarr (x :: _)) =>
      match x with
      | .jobj kvs2 =>
        match (kvs2.find? (fun kv => kv.1 == "base64")).map Prod.snd with
        | some (.jstr b) => b64decode b
        | _ => none
      | _ => none
    | _ => none
  | _ => none

/-- Modelled from the spec (§4.2): the generation call, restated from
the specification sentence — success exactly on a 200 response whose
parsed body has the successful artifact shape, and the single failure
outcome `(false, none)` in every other case. -/
def specResult (r : HttpOutcome) : Bool × Option Bytes :=
  match r with
  | .resp 200 (some j) => ((successShape j).isSome, successShape j)
  | _ => (false, none)

/-- Helper: the final `try` block of `generate_image_sync` computes
exactly the spec-side artifact extraction `successShape`. -/
theorem extractArtifact_getD (j : Json) :
    (extractArtifact j).getD (false, none) = ((successShape j).isSome, successShape j) := by
  cases j with
  | jnull => rfl
  | jbool b => rfl
  | jnum n => rfl
  | jstr s =>
    simp only [extractArtifact, successShape, pyIn]
    cases strContains "artifacts" s <;> rfl
  | jarr xs =>
    simp only [extractArtifact, successShape, pyIn]
    cases xs.any (pyEqStr "artifacts") <;> rfl
  | jobj kvs =>
    simp only [extractArtifact, successShape, pyIn, pyGetStr]
    cases hf : kvs.find? (fun kv => kv.1 == "artifacts") with
    | none => rfl
    | some kv =>
      simp only [Option.isSome, Option.map]
      cases kv.2 with
      | jnull => rfl
      | jbool b => rfl
      | jnum n => rfl
      | jstr s =>
        simp only [pyLen, pyGetNat]
        by_cases hl : s.length = 0
        · simp [hl]
        · simp only [hl, if_false]
          cases hg : s.toList.get? 0 with
          | none => rfl
          | some c =>
            simp only [Option.map, pyIn]
            cases strContains "base64" (String.mk [c]) <;> rfl
      | jobj kvs2 =>
        simp only [pyLen, pyGetNat]
        by_cases hl : kvs2.length = 0
        · simp [hl]
        · simp [hl]
      | jarr xs =>
        cases xs with
        | nil => rfl
        | cons x rest =>
          simp only [pyLen, List.length, pyGetNat, List.get?]
          have hne : rest.length + 1 ≠ 0 := Nat.succ_ne_zero _
          simp only [hne, if_false]
          cases x with
          | jnull => rfl
          | jbool b => rfl
          | jnum n => rfl
          | jstr s2 =>
            simp only [pyIn]
            cases strContains "base64" s2 <;> rfl
          | jarr xs2 =>
            simp only [pyIn]
            cases xs2.any (pyEqStr "base64") <;> rfl
          | jobj kvs2 =>
            simp only [pyIn, pyGetStr]
            cases hf2 : kvs2.find? (fun kv => kv.1 == "base64") with
            | none => rfl
            | some kv2 =>
              simp only [Option.isSome, Option.map, b64decodeVal]
              cases kv2.2 with
              | jstr b =>
                cases hb : b64decode b with
                | none => simp [hb]
                | some bytes => simp [hb]
              | jnull => rfl
              | jbool b => rfl
              | jnum n => rfl
              | jarr a => rfl
              | jobj o => rfl

/-- Helper: a response whose status is not 200 is a failure. -/
theorem specResult_not200 (status : Nat) (body : Option Json) (h : status ≠ 200) :
    specResult (.resp status body) = (false, none) := by
  unfold specResult
  split
  · next heq => exact absurd (by injection heq) h
  · rfl

/-! ### Helper lemmas -/

/-- A four-character string is not empty. -/
theorem generate_otp_ne_empty (n : Nat) : generate_otp n ≠ "" := by
  intro h
  have h2 := congrArg String.data h
  simp [generate_otp] at h2

/-- The literal prefix survives appending. -/
theorem dim_isPrefixOf_append (tok : String) :
    ("dim:".toList.isPrefixOf ("dim:" ++ tok).toList) = true := by
  rw [List.isPrefixOf_iff_prefix]
  show "dim:".data <+: "dim:".data ++ tok.data
  exact List.prefix_append _ _

/-- Splitting at the first colon of a `dim:`-prefixed payload yields
the token. -/
theorem splitColonTail_dim (tok : String) : splitColonTail ("dim:" ++ tok) = tok := by
  show String.mk ((("dim:" ++ tok).data.dropWhile fun c => c != ':').drop 1) = tok
  have h : ("dim:" ++ tok).data = 'd' :: 'i' :: 'm' :: ':' :: tok.data := rfl
  rw [h]
  simp [List.dropWhile]

/-- Appending `". Edit: "` always yields a non-empty string. -/
theorem combined_isEmpty_false (a c : String) :
    ((a ++ ". Edit: ") ++ c).isEmpty = false := by
  rw [Bool.eq_false_iff]
  intro h
  have h2 : (a ++ ". Edit: ") ++ c = "" := (String.isEmpty_iff _).mp h
  have h3 := congrArg String.data h2
  have h4 : (a.data ++ ". Edit: ".data) ++ c.data = ([] : List Char) := h3
  simp at h4

/-- Saving onto a full 20-element gallery drops exactly the head. -/
theorem takeLast_twenty (l : List α) (x : α) (h : l.length = 20) :
    takeLast 20 (l ++ [x]) = l.tail ++ [x] := by
  cases l with
  | nil => simp at h
  | cons a t =>
    have ht : t.length = 19 := by simpa using h
    unfold takeLast
    simp [List.length_append, ht]

/-- In every outcome of the edit handler with a non-empty original
prompt, the stored prompt is the composed one. -/
theorem edit_sets_combined_prompt (t : String) (g : Bool × Option Bytes) (b : Bool)
    (s : Session) (p : String) (hp : s.last_prompt = some p) (hpe : p.isEmpty = false) :
    (edit_prompt_handler t g b s).session.last_prompt
      = some (p ++ ". Edit: " ++ pyStrip t) := by
  unfold edit_prompt_handler
  rw [hp]
  simp only [Option.getD_some, hpe, Bool.false_eq_true, if_false]
  split
  · rfl
  · split
    · rfl
    · split
      · rfl
      · split
        · rfl
        · rfl

/-! ### Claims -/

/-- C2 counterexample: the DIMENSION_CHOICE handler stores the token
`7x7` from the payload `dim:7x7` even though it is not in the nine-pair
allow-list, refuting the claimed validation. -/
theorem dimension_allowlist_counterexample :
    (dimension_chosen "dim:7x7" emptySession).session.dimension = some "7x7"
    ∧ "7x7" ∉ ALLOWED_DIMS
    ∧ (dimension_chosen "dim:7x7" emptySession).next = Next.state ConvState.AWAIT_PROMPT := by
  decide

/-- C2 (amended): in DIMENSION_CHOICE any payload of the form
`dim:<token>` has the token stored as the dimension with no allow-list
check (the allow-list only determines the buttons offered), and a
payload without the `dim:` prefix leaves the session and state
unchanged. -/
theorem dimension_chosen_stores_token (tok d : String) (s : Session)
    (hd : ("dim:".toList.isPrefixOf d.toList) = false) :
    (dimension_chosen ("dim:" ++ tok) s).session.dimension = some tok
    ∧ (dimension_chosen ("dim:" ++ tok) s).next = Next.state ConvState.AWAIT_PROMPT
    ∧ dimension_chosen d s
        = ⟨s, Next.state ConvState.DIMENSION_CHOICE, ["Invalid selection."]⟩ := by
  refine ⟨?_, ?_, ?_⟩
  · simp [dimension_chosen, dim_isPrefixOf_append, splitColonTail_dim]
  · simp [dimension_chosen, dim_isPrefixOf_append]
  · unfold dimension_chosen
    rw [hd]
    simp

theorem dimension_chosen_stores_token_witness :
    (("dim:".toList.isPrefixOf "foo".toList) = false)
    ∧ ((dimension_chosen ("dim:" ++ "1024x1024") emptySession).session.dimension
          = some "1024x1024"
      ∧ (dimension_chosen ("dim:" ++ "1024x1024") emptySession).next
          = Next.state ConvState.AWAIT_PROMPT
      ∧ dimension_chosen "foo" emptySession
          = ⟨emptySession, Next.state ConvState.DIMENSION_CHOICE, ["Invalid selection."]⟩) :=
  ⟨by decide, dimension_chosen_stores_token "1024x1024" "foo" emptySession (by decide)⟩

/-- C3: with the gallery at its capacity of 20 and an image held, the
save action appends the image and evicts exactly the oldest entry:
the gallery is still 20 long, equals the old tail plus the new image,
ends with the new image, and no longer holds the old head (stated for
a head that does not also occur later or equal the new image). -/
theorem gallery_save_fifo (s : Session) (img old : Bytes)
    (h20 : s.gallery.length = 20) (him : s.last_image = some img)
    (_hold : s.gallery.head? = some old) (hnd : old ∉ s.gallery.tail) (hni : old ≠ img) :
    (after_image_action "act:save" s).session.gallery = s.gallery.tail ++ [img]
    ∧ (after_image_action "act:save" s).session.gallery.length = 20
    ∧ (after_image_action "act:save" s).session.gallery.getLast? = some img
    ∧ old ∉ (after_image_action "act:save" s).session.gallery
    ∧ (after_image_action "act:save" s).next = Next.state ConvState.AFTER_IMAGE := by
  have hstep : after_image_action "act:save" s = afterImageStep "save" s := rfl
  have hgal : (after_image_action "act:save" s).session.gallery
      = takeLast 20 (s.gallery ++ [img]) := by
    rw [hstep]
    unfold afterImageStep
    rw [him]
    rfl
  have heq : takeLast 20 (s.gallery ++ [img]) = s.gallery.tail ++ [img] :=
    takeLast_twenty s.gallery img h20
  have hlen : s.gallery.tail.length = 19 := by
    cases hg : s.gallery with
    | nil => rw [hg] at h20; simp at h20
    | cons a t => rw [hg] at h20; simpa using h20
  refine ⟨hgal.trans heq, ?_, ?_, ?_, ?_⟩
  · rw [hgal, heq]; simp [hlen]
  · rw [hgal, heq]; simp
  · rw [hgal, heq]; simp [hnd, hni]
  · rw [hstep]; unfold afterImageStep; rw [him]; rfl

def s20 : Session :=
  { emptySession with
    gallery := (List.range 20).map (fun n => [n]),
    last_image := some [100] }

theorem gallery_save_fifo_witness :
    (s20.gallery.length = 20 ∧ s20.last_image = some [100]
      ∧ s20.gallery.head? = some [0] ∧ [0] ∉ s20.gallery.tail ∧ [0] ≠ ([100] : Bytes))
    ∧ ((after_image_action "act:save" s20).session.gallery = s20.gallery.tail ++ [[100]]
      ∧ (after_image_action "act:save" s20).session.gallery.length = 20
      ∧ (after_image_action "act:save" s20).session.gallery.getLast? = some [100]
      ∧ [0] ∉ (after_image_action "act:save" s20).session.gallery
      ∧ (after_image_action "act:save" s20).next = Next.state ConvState.AFTER_IMAGE) :=
  ⟨⟨by decide, by decide, by decide, by decide, by decide⟩,
    gallery_save_fifo s20 [100] [0] (by decide) (by decide) (by decide) (by decide) (by decide)⟩

/-- C6: the start command resets the session to the empty session —
no name, phone, otp, verified flag, dimension, last prompt, last
image or gallery survives — and enters ASK_NAME. -/
theorem cmd_start_resets (s : Session) :
    cmd_start s
      = ⟨emptySession, Next.state ConvState.ASK_NAME, ["👋 Welcome! What\x27s your *name*?"]⟩
    ∧ (cmd_start s).session.name = none
    ∧ (cmd_start s).session.phone = none
    ∧ (cmd_start s).session.otp = none
    ∧ (cmd_start s).session.verified = false
    ∧ (cmd_start s).session.dimension = none
    ∧ (cmd_start s).session.last_prompt = none
    ∧ (cmd_start s).session.last_image = none
    ∧ (cmd_start s).session.gallery = []
    ∧ (cmd_start s).next = Next.state ConvState.ASK_NAME :=
  ⟨rfl, rfl, rfl, rfl, rfl, rfl, rfl, rfl, rfl, rfl⟩

/-- C9: the nosave action removes the held image, so a following save
action finds no image, changes nothing (in particular the gallery),
and stays in AFTER_IMAGE. -/
theorem nosave_then_save (s : Session) :
    (after_image_action "act:nosave" s).session.last_image = none
    ∧ (after_image_action "act:nosave" s).next = Next.state ConvState.AFTER_IMAGE
    ∧ after_image_action "act:save" (after_image_action "act:nosave" s).session
        = ⟨(after_image_action "act:nosave" s).session, Next.state ConvState.AFTER_IMAGE,
            ["No image available to save."]⟩
    ∧ (after_image_action "act:save" (after_image_action "act:nosave" s).session).session.gallery
        = s.gallery :=
  ⟨rfl, rfl, rfl, rfl⟩

/-- C10: when the AWAIT_PROMPT handler runs with no dimension set, the
stripped incoming text has already been stored as `last_prompt` by the
time the conversation is ended: the abort is not atomic with respect
to `last_prompt`. -/
theorem prompt_stored_before_abort (t : String) (g : Bool × Option Bytes) (b : Bool)
    (s : Session) (hd : s.dimension = none) :
    (receive_prompt_and_generate t g b s).session.last_prompt = some (pyStrip t)
    ∧ (receive_prompt_and_generate t g b s).next = Next.ended := by
  unfold receive_prompt_and_generate
  simp [strOptFalsy, hd]

theorem prompt_stored_before_abort_witness :
    emptySession.dimension = none
    ∧ ((receive_prompt_and_generate "a red fox" (true, some [1]) true emptySession).session.last_prompt
          = some (pyStrip "a red fox")
      ∧ (receive_prompt_and_generate "a red fox" (true, some [1]) true emptySession).next
          = Next.ended) :=
  ⟨rfl, prompt_stored_before_abort "a red fox" (true, some [1]) true emptySession rfl⟩

/-- C4: with a non-empty `last_prompt` p, the edit handler stores
`p ++ ". Edit: " ++ instructions`, and a second edit chains onto the
composed prompt rather than the original. -/
theorem edit_prompt_composes (t1 t2 : String) (g1 g2 : Bool × Option Bytes)
    (b1 b2 : Bool) (s : Session) (p : String)
    (hp : s.last_prompt = some p) (hpe : p.isEmpty = false) :
    (edit_prompt_handler t1 g1 b1 s).session.last_prompt
      = some (p ++ ". Edit: " ++ pyStrip t1)
    ∧ (edit_prompt_handler t2 g2 b2 (edit_prompt_handler t1 g1 b1 s).session).session.last_prompt
      = some ((p ++ ". Edit: " ++ pyStrip t1) ++ ". Edit: " ++ pyStrip t2) := by
  have h1 := edit_sets_combined_prompt t1 g1 b1 s p hp hpe
  exact ⟨h1, edit_sets_combined_prompt t2 g2 b2 _ _ h1 (combined_isEmpty_false p (pyStrip t1))⟩

def sPrompted : Session := { emptySession with last_prompt := some "a red fox" }

theorem edit_prompt_composes_witness :
    (sPrompted.last_prompt = some "a red fox" ∧ "a red fox".isEmpty = false)
    ∧ ((edit_prompt_handler "add a hat" (true, some [1]) true sPrompted).session.last_prompt
        = some ("a red fox" ++ ". Edit: " ++ pyStrip "add a hat")
      ∧ (edit_prompt_handler "blue sky" (false, none) false
            (edit_prompt_handler "add a hat" (true, some [1]) true sPrompted).session).session.last_prompt
        = some (("a red fox" ++ ". Edit: " ++ pyStrip "add a hat") ++ ". Edit: " ++ pyStrip "blue sky")) :=
  ⟨⟨rfl, by decide⟩,
    edit_prompt_composes "add a hat" "blue sky" (true, some [1]) (false, none) true false
      sPrompted "a red fox" rfl (by decide)⟩

/-- C5: with a generated OTP stored, entering a string that strips to
the OTP sets `verified` and moves to DIMENSION_CHOICE; any other
entry leaves the whole session unchanged and stays in VERIFY_OTP (no
counter exists, so retries are unlimited). -/
theorem otp_verification (s : Session) (n : Nat) (t t' : String)
    (hotp : s.otp = some (generate_otp n))
    (hm : pyStrip t = generate_otp n)
    (hmm : pyStrip t' ≠ generate_otp n) :
    (verify_otp_handler t s).session.verified = true
    ∧ (verify_otp_handler t s).next = Next.state ConvState.DIMENSION_CHOICE
    ∧ verify_otp_handler t' s
        = ⟨s, Next.state ConvState.VERIFY_OTP, ["❌ Wrong OTP. Please try again."]⟩ := by
  have hne := generate_otp_ne_empty n
  refine ⟨?_, ?_, ?_⟩ <;> simp [verify_otp_handler, hotp, hm, hmm, hne]

def sOtp : Session := { emptySession with otp := some (generate_otp 234) }

theorem otp_verification_witness :
    (sOtp.otp = some (generate_otp 234) ∧ pyStrip "1234" = generate_otp 234
      ∧ pyStrip "0000" ≠ generate_otp 234)
    ∧ ((verify_otp_handler "1234" sOtp).session.verified = true
      ∧ (verify_otp_handler "1234" sOtp).next = Next.state ConvState.DIMENSION_CHOICE
      ∧ verify_otp_handler "0000" sOtp
          = ⟨sOtp, Next.state ConvState.VERIFY_OTP, ["❌ Wrong OTP. Please try again."]⟩) :=
  ⟨⟨rfl, by decide, by decide⟩,
    otp_verification sOtp 234 "1234" "0000" rfl (by decide) (by decide)⟩

/-- C1 counterexample: at the edit call site a generation failure
returns AFTER_IMAGE, which is not a text-input state (it is served by
a CallbackQueryHandler), refuting the claim that every failing call
site returns a text-input state. -/
def sEditFail : Session :=
  { emptySession with
    dimension := some "1024x1024",
    last_prompt := some "a red fox",
    last_image := some [7] }

theorem generation_failure_edit_counterexample :
    (edit_prompt_handler "add a hat" (false, none) true sEditFail).next
      = Next.state ConvState.AFTER_IMAGE
    ∧ isTextInput ConvState.AFTER_IMAGE = false
    ∧ (edit_prompt_handler "add a hat" (false, none) true sEditFail).next ≠ Next.ended := by
  decide

/-- C1 (amended): a generation failure leaves `last_image` unchanged
and does not end the conversation at any of the three call sites; the
next state is the text-input state AWAIT_PROMPT for the initial
prompt and the regenerate sites, but the button-input state
AFTER_IMAGE for the edit site. -/
theorem generation_failure_behavior (t1 t2 t3 : String) (b1 b2 b3 : Bool)
    (s : Session) (d p : String)
    (hd : s.dimension = some d) (hde : d.isEmpty = false)
    (hpd : (parseDim d).isSome = true)
    (hp : s.last_prompt = some p) (hpe : p.isEmpty = false) :
    ((receive_prompt_and_generate t1 (false, none) b1 s).session.last_image = s.last_image
      ∧ (receive_prompt_and_generate t1 (false, none) b1 s).next
          = Next.state ConvState.AWAIT_PROMPT)
    ∧ ((edit_prompt_handler t2 (false, none) b2 s).session.last_image = s.last_image
      ∧ (edit_prompt_handler t2 (false, none) b2 s).next
          = Next.state ConvState.AFTER_IMAGE)
    ∧ ((regen_prompt_handler t3 (false, none) b3 s).session.last_image = s.last_image
      ∧ (regen_prompt_handler t3 (false, none) b3 s).next
          = Next.state ConvState.AWAIT_PROMPT)
    ∧ isTextInput ConvState.AWAIT_PROMPT = true
    ∧ isTextInput ConvState.AFTER_IMAGE = false := by
  obtain ⟨wh, hwh⟩ := Option.isSome_iff_exists.mp hpd
  refine ⟨⟨?_, ?_⟩, ⟨?_, ?_⟩, ⟨?_, ?_⟩, rfl, rfl⟩ <;>
    simp [receive_prompt_and_generate, edit_prompt_handler, regen_prompt_handler,
      strOptFalsy, hd, hde, hwh, hp, hpe]

theorem generation_failure_behavior_witness :
    (sEditFail.dimension = some "1024x1024" ∧ "1024x1024".isEmpty = false
      ∧ (parseDim "1024x1024").isSome = true
      ∧ sEditFail.last_prompt = some "a red fox" ∧ "a red fox".isEmpty = false)
    ∧ (((receive_prompt_and_generate "x" (false, none) true sEditFail).session.last_image
          = sEditFail.last_image
      ∧ (receive_prompt_and_generate "x" (false, none) true sEditFail).next
          = Next.state ConvState.AWAIT_PROMPT)
    ∧ ((edit_prompt_handler "y" (false, none) true sEditFail).session.last_image
          = sEditFail.last_image
      ∧ (edit_prompt_handler "y" (false, none) true sEditFail).next
          = Next.state ConvState.AFTER_IMAGE)
    ∧ ((regen_prompt_handler "z" (false, none) true sEditFail).session.last_image
          = sEditFail.last_image
      ∧ (regen_prompt_handler "z" (false, none) true sEditFail).next
          = Next.state ConvState.AWAIT_PROMPT)
    ∧ isTextInput ConvState.AWAIT_PROMPT = true
    ∧ isTextInput ConvState.AFTER_IMAGE = false) :=
  ⟨⟨rfl, by decide, by decide, rfl, by decide⟩,
    generation_failure_behavior "x" "y" "z" true true true sEditFail "1024x1024" "a red fox"
      rfl (by decide) (by decide) rfl (by decide)⟩

/-- C7 counterexample: the edit handler with the dimension absent and
the prompt also missing returns AWAIT_PROMPT instead of ending the
conversation: its missing-prompt check runs before the dimension
check. -/
theorem missing_dimension_edit_counterexample :
    emptySession.dimension = none
    ∧ (edit_prompt_handler "add a hat" (false, none) true emptySession).next
        = Next.state ConvState.AWAIT_PROMPT
    ∧ (edit_prompt_handler "add a hat" (false, none) true emptySession).next ≠ Next.ended := by
  decide

/-- C7 (amended): with the dimension absent the AWAIT_PROMPT and
REGEN_PROMPT handlers, and the EDIT_PROMPT handler provided its
earlier missing-prompt check passes, end the conversation with their
corrective restart message; the result does not depend on the
generation or send outcomes, i.e. the Generation Client is not
invoked. -/
theorem missing_dimension_behavior (t1 t2 t3 : String) (g g' : Bool × Option Bytes)
    (b b' : Bool) (s : Session) (p : String)
    (hd : s.dimension = none) (hp : s.last_prompt = some p) (hpe : p.isEmpty = false) :
    ((receive_prompt_and_generate t1 g b s).next = Next.ended
      ∧ (receive_prompt_and_generate t1 g b s).msgs
          = ["⚠️ Dimension not set. Please /start and choose a dimension."]
      ∧ receive_prompt_and_generate t1 g b s = receive_prompt_and_generate t1 g' b' s)
    ∧ ((edit_prompt_handler t2 g b s).next = Next.ended
      ∧ (edit_prompt_handler t2 g b s).msgs
          = ["Dimension missing. Please /start and choose dimension."]
      ∧ edit_prompt_handler t2 g b s = edit_prompt_handler t2 g' b' s)
    ∧ ((regen_prompt_handler t3 g b s).next = Next.ended
      ∧ (regen_prompt_handler t3 g b s).msgs = ["Dimension missing. Start with /start."]
      ∧ regen_prompt_handler t3 g b s = regen_prompt_handler t3 g' b' s) := by
  refine ⟨⟨?_, ?_, ?_⟩, ⟨?_, ?_, ?_⟩, ⟨?_, ?_, ?_⟩⟩ <;>
    simp [receive_prompt_and_generate, edit_prompt_handler, regen_prompt_handler,
      strOptFalsy, hd, hp, hpe]

theorem missing_dimension_behavior_witness :
    (sPrompted.dimension = none ∧ sPrompted.last_prompt = some "a red fox"
      ∧ "a red fox".isEmpty = false)
    ∧ (((receive_prompt_and_generate "x" (true, some [1]) true sPrompted).next = Next.ended
      ∧ (receive_prompt_and_generate "x" (true, some [1]) true sPrompted).msgs
          = ["⚠️ Dimension not set. Please /start and choose a dimension."]
      ∧ receive_prompt_and_generate "x" (true, some [1]) true sPrompted
          = receive_prompt_and_generate "x" (false, none) false sPrompted)
    ∧ ((edit_prompt_handler "y" (true, some [1]) true sPrompted).next = Next.ended
      ∧ (edit_prompt_handler "y" (true, some [1]) true sPrompted).msgs
          = ["Dimension missing. Please /start and choose dimension."]
      ∧ edit_prompt_handler "y" (true, some [1]) true sPrompted
          = edit_prompt_handler "y" (false, none) false sPrompted)
    ∧ ((regen_prompt_handler "z" (true, some [1]) true sPrompted).next = Next.ended
      ∧ (regen_prompt_handler "z" (true, some [1]) true sPrompted).msgs
          = ["Dimension missing. Start with /start."]
      ∧ regen_prompt_handler "z" (true, some [1]) true sPrompted
          = regen_prompt_handler "z" (false, none) false sPrompted)) :=
  ⟨⟨rfl, rfl, by decide⟩,
    missing_dimension_behavior "x" "y" "z" (true, some [1]) (false, none) true false
      sPrompted "a red fox" rfl rfl (by decide)⟩

/-- C8 counterexample: a 200 response whose body has a non-empty
artifacts list whose first element has a base64 field is still a
failure when the field value (here the unpadded string `A`) does not
decode, refuting the claimed if-and-only-if. -/
def badBody : Json := .jobj [("artifacts", .jarr [.jobj [("base64", .jstr "A")]])]

theorem generate_image_sync_counterexample :
    generate_image_sync (.resp 200 (some badBody)) = (false, none)
    ∧ pyGetStr badBody "artifacts" = some (.jarr [.jobj [("base64", .jstr "A")]])
    ∧ pyLen (.jarr [.jobj [("base64", .jstr "A")]]) = some 1
    ∧ pyIn "base64" (.jobj [("base64", .jstr "A")]) = some true
    ∧ b64decode "A" = none :=
  ⟨rfl, rfl, rfl, rfl, rfl⟩

/-- C8 (amended): the synchronous generation call succeeds with bytes
exactly when the request did not raise, the status is 200, the body
parses, and the body is an object whose artifacts member is a
non-empty array whose first element is an object carrying a base64
string field that decodes; every other case, including an undecodable
base64 value, is the single outcome `(false, none)`. -/
theorem generate_image_sync_matches_spec (r : HttpOutcome) :
    generate_image_sync r = specResult r := by
  cases r with
  | raised => rfl
  | resp status body =>
    by_cases h : status = 200
    · subst h
      cases body with
      | none => rfl
      | some j => simpa [generate_image_sync, specResult] using extractArtifact_getD j
    · rw [specResult_not200 status body h]
      simp [generate_image_sync, h]
